import Mathlib

/-!
Verification of the playback-lifecycle scheduler (`Source`) of this
repository against its specification.

The embedding models times as rational seconds. The `Source` operations
(`start`, `stop`, `sync`, `unsync`, `dispose`, the two transport bridges and
the derived `state` getter) are translated from `src/Tone/source/Source.ts`;
the clock/conversion helpers (`now`, `sampleTime`, `toSeconds`) from
`src/Tone/core/context/ToneWithContext.ts`. The `StateTimeline` container and
the base class's use-after-dispose guard are not under `src/` and are
modelled from the specification (each such definition is marked
`Modelled from the spec:`). The abstract primitives `_start`, `_stop`,
`restart` are recorded as a trace of `Prim` invocations instead of producing
sound.
-/

namespace Tone

/-- `BasicPlaybackState`: the two states recorded in the `StateTimeline`
(`"started"`/`"stopped"`). -/
inductive BasicPlaybackState where
  | started
  | stopped
deriving DecidableEq, Repr

/-- The transport's own state: `"started" | "stopped" | "paused"`. -/
inductive TransportState where
  | started
  | stopped
  | paused
deriving DecidableEq, Repr

/-- A timeline event, as stored by `Source` in its `StateTimeline`:
`time`, `state`, and the optional `offset`, `duration`, `implicitEnd`. -/
structure StateEvent where
  time : ℚ
  state : BasicPlaybackState
  offset : Option ℚ
  duration : Option ℚ
  implicitEnd : Option Bool
deriving DecidableEq, Repr

namespace StateTimeline

/-- Modelled from the spec: `StateTimeline` (its source,
`src/Tone/core/util/StateTimeline.ts`, is not under `src/`).
`cancel(time)` removes every event whose `time' ≥ time` and never removes
events strictly before it. -/
def cancel (t : ℚ) (tl : List StateEvent) : List StateEvent :=
  tl.filter (fun e => decide (e.time < t))

/-- Modelled from the spec: `StateTimeline.get(time)` — the latest event whose
`time' ≤ time`, or `none` when no event precedes `time`. -/
def getEventAtTime (t : ℚ) (tl : List StateEvent) : Option StateEvent :=
  (tl.filter (fun e => decide (e.time ≤ t))).getLast?

/-- Modelled from the spec: `StateTimeline.getValueAtTime(time)` — the `state`
of the latest event at or before `time`, defaulting to `stopped` when none
exists. -/
def getValueAtTime (t : ℚ) (tl : List StateEvent) : BasicPlaybackState :=
  match getEventAtTime t tl with
  | some e => e.state
  | none => BasicPlaybackState.stopped

/-- Insert an event keeping the list sorted by `time` (the event goes in
front of the first strictly later event). -/
def insertEvent (e : StateEvent) : List StateEvent → List StateEvent
  | [] => [e]
  | x :: xs => if e.time < x.time then e :: x :: xs else x :: insertEvent e xs

/-- Modelled from the spec: `StateTimeline.setStateAtTime(state, time)` —
inserts/overwrites the event at `time` (at most one event per exact time),
maintains sort order, and keeps at most `memory` events by evicting the
oldest when the bound would be exceeded. -/
def setStateAtTime (st : BasicPlaybackState) (t : ℚ) (memory : ℕ)
    (tl : List StateEvent) : List StateEvent :=
  let l := insertEvent ⟨t, st, none, none, none⟩
    (tl.filter (fun e => decide (e.time ≠ t)))
  if memory < l.length then l.drop (l.length - memory) else l

end StateTimeline

/-- Transport lifecycle event names the `Source` listens to:
`start`, `stop`, `pause`, `loopStart`, `loopEnd`. -/
inductive TransportEventName where
  | start
  | stop
  | pause
  | loopStart
  | loopEnd
deriving DecidableEq, Repr

/-- A tag identifying which of the source's two bridge closures a listener
registration refers to (`_syncedStart` or `_syncedStop`). -/
inductive ListenerTag where
  | syncedStartTag
  | syncedStopTag
deriving DecidableEq, Repr

/-- The kind of deferred callback the source hands to `transport.schedule`:
either `t => this._start(t, offset, duration)` or `this._stop.bind(this)`. -/
inductive ScheduledKind where
  | startCallback (offset : Option ℚ) (duration : Option ℚ)
  | stopCallback
deriving DecidableEq, Repr

/-- One entry in the transport's deferred-callback table, created by
`transport.schedule(callback, time)`. -/
structure ScheduledEntry where
  id : ℕ
  time : ℚ
  kind : ScheduledKind
deriving DecidableEq, Repr

/-- The observable transport state the `Source` interacts with: its lifecycle
state, current logical `seconds`, and the registration tables touched by this
source (`schedule`/`clear` entries and `on`/`off` listeners). -/
structure TransportModel where
  tstate : TransportState
  seconds : ℚ
  nextId : ℕ
  scheduled : List ScheduledEntry
  listeners : List (TransportEventName × ListenerTag)
deriving DecidableEq, Repr

namespace TransportModel

/-- `transport.on(name, callback)`: install a listener. -/
def onEvent (name : TransportEventName) (tag : ListenerTag)
    (tr : TransportModel) : TransportModel :=
  { tr with listeners := tr.listeners ++ [(name, tag)] }

/-- `transport.off(name, callback)`: remove that listener registration. -/
def offEvent (name : TransportEventName) (tag : ListenerTag)
    (tr : TransportModel) : TransportModel :=
  { tr with listeners := tr.listeners.filter (fun l => decide (l ≠ (name, tag))) }

/-- `transport.schedule(callback, time) → identifier`: record the deferred
callback and return a fresh identifier. -/
def schedule (t : ℚ) (k : ScheduledKind) (tr : TransportModel) :
    ℕ × TransportModel :=
  (tr.nextId,
   { tr with
     scheduled := tr.scheduled ++ [⟨tr.nextId, t, k⟩],
     nextId := tr.nextId + 1 })

/-- `transport.clear(identifier)`: remove the deferred callback with that
identifier. -/
def clear (i : ℕ) (tr : TransportModel) : TransportModel :=
  { tr with scheduled := tr.scheduled.filter (fun e => decide (e.id ≠ i)) }

/-- `this._scheduled.forEach(id => this.context.transport.clear(id))`. -/
def clearAll (ids : List ℕ) (tr : TransportModel) : TransportModel :=
  ids.foldl (fun acc i => clear i acc) tr

end TransportModel

/-- The execution context the source reads: the rendering clock
(`currentTime`, `lookAhead`, `sampleRate` of `ToneWithContext`) and the
transport's `getSecondsAtTime` mapping from a rendering-clock instant to the
transport's logical position. -/
structure Ctx where
  currentTime : ℚ
  lookAhead : ℚ
  sampleRate : ℚ
  getSecondsAtTime : ℚ → ℚ

/-- `ToneWithContext.toSeconds`: in this embedding `Time` values are already
rational seconds, and an absent argument means "now" — the rendering clock's
`currentTime + lookAhead`, following `TimeClass`/`ToneWithContext.now`. -/
def Ctx.toSeconds (ctx : Ctx) : Option ℚ → ℚ
  | some v => v
  | none => ctx.currentTime + ctx.lookAhead

/-- `ToneWithContext.now()`: `currentTime + lookAhead`. -/
def Ctx.now (ctx : Ctx) : ℚ :=
  ctx.currentTime + ctx.lookAhead

/-- `ToneWithContext.sampleTime`: `1 / sampleRate`. -/
def Ctx.sampleTime (ctx : Ctx) : ℚ :=
  1 / ctx.sampleRate

/-- The `Source` instance's own fields: the `_state` timeline (with its
`memory` bound, set to 100 in the constructor), the `_synced` flag, the
`_scheduled` identifier list, and the base class's disposed flag. -/
structure SourceState where
  timeline : List StateEvent
  memory : ℕ
  synced : Bool
  scheduled : List ℕ
  disposed : Bool
deriving DecidableEq, Repr

/-- A `Source` together with the transport registrations it interacts with. -/
structure SysState where
  src : SourceState
  transport : TransportModel
deriving DecidableEq, Repr

/-- A recorded invocation of one of the abstract playback primitives
`_start(time, offset?, duration?)`, `_stop(time)`,
`restart(time, offset?, duration?)`. -/
inductive Prim where
  | primStart (time : ℚ) (offset : Option ℚ) (duration : Option ℚ)
  | primStop (time : ℚ)
  | primRestart (time : ℚ) (offset : Option ℚ) (duration : Option ℚ)
deriving DecidableEq, Repr

namespace Source

/-- A freshly constructed, unsynced source: empty timeline with
`memory = 100`, no tracked identifiers, not disposed. -/
def initial (tr : TransportModel) : SysState :=
  { src := { timeline := [], memory := 100, synced := false,
             scheduled := [], disposed := false },
    transport := tr }

/-- The effective time both `start` and `stop` compute:
`isUndef(time) && this._synced ? this.context.transport.seconds
 : Math.max(this.toSeconds(time), this.context.currentTime)`. -/
def computedTime (tArg : Option ℚ) (sys : SysState) (ctx : Ctx) : ℚ :=
  if tArg.isNone && sys.src.synced then sys.transport.seconds
  else max (ctx.toSeconds tArg) ctx.currentTime

/-- The mutation in `start`'s synced branch: `const event =
this._state.get(computedTime); if (event) { event.offset =
this.toSeconds(defaultArg(offset, 0)); event.duration = duration ?
this.toSeconds(duration) : undefined; }` (a JS falsy `duration`, i.e. `0` or
absent, stores `undefined`). -/
def setEventOffsetDuration (t : ℚ) (offset duration : Option ℚ)
    (tl : List StateEvent) : List StateEvent :=
  match StateTimeline.getEventAtTime t tl with
  | none => tl
  | some ev =>
    tl.map (fun x =>
      if x.time = ev.time then
        { x with
          offset := some (offset.getD 0),
          duration := match duration with
            | none => none
            | some d => if d = 0 then none else some d }
      else x)

/-- The `_syncedStart` bridge closure installed by `sync()` (it reads the
source's timeline when it fires): given `(time, offset)` from the transport's
`start`/`loopStart` event, replay `_start` when playback logically began
before the replay point. `if (stateEvent.duration)` is a JS truthiness test,
so a zero duration counts as absent. -/
def syncedStartBridge (tl : List StateEvent) (ctx : Ctx)
    (time offset : ℚ) : List Prim :=
  if 0 < offset then
    match StateTimeline.getEventAtTime offset tl with
    | some stateEvent =>
      if stateEvent.state = BasicPlaybackState.started ∧
          stateEvent.time ≠ offset then
        let startOffset := offset - stateEvent.time
        let duration : Option ℚ :=
          match stateEvent.duration with
          | some d => if d = 0 then none else some (d - startOffset)
          | none => none
        [Prim.primStart time
          (some (ctx.toSeconds stateEvent.offset + startOffset)) duration]
      else []
    | none => []
  else []

/-- The `_syncedStop` bridge closure installed by `sync()`: map the rendering
time one sample back into transport seconds and `_stop` only when the
timeline reports `started` there. -/
def syncedStopBridge (tl : List StateEvent) (ctx : Ctx)
    (time : ℚ) : List Prim :=
  let seconds := ctx.getSecondsAtTime (max (time - ctx.sampleTime) 0)
  if StateTimeline.getValueAtTime seconds tl = BasicPlaybackState.started then
    [Prim.primStop time]
  else []

/-- `Source.start(time?, offset?, duration?)`, returning the updated state and
the trace of primitive invocations. If the timeline already reports `started`
at the computed time: cancel at/after it, re-insert `started`, and call
`restart`. Otherwise insert `started`; when synced, store offset/duration on
the event, schedule a deferred `_start` with the transport, track the
identifier, and — if the transport is already started — fire `_syncedStart`
immediately with `(this.now(), transport.seconds)`; when unsynced, call
`_start` immediately. -/
def start (tArg offset duration : Option ℚ) (sys : SysState) (ctx : Ctx) :
    SysState × List Prim :=
  let t := computedTime tArg sys ctx
  if StateTimeline.getValueAtTime t sys.src.timeline =
      BasicPlaybackState.started then
    ({ sys with src := { sys.src with
        timeline := StateTimeline.setStateAtTime BasicPlaybackState.started t
          sys.src.memory (StateTimeline.cancel t sys.src.timeline) } },
     [Prim.primRestart t offset duration])
  else
    let tl₁ := StateTimeline.setStateAtTime BasicPlaybackState.started t
      sys.src.memory sys.src.timeline
    if sys.src.synced then
      let tl₂ := setEventOffsetDuration t offset duration tl₁
      let sched := (TransportModel.schedule t
        (ScheduledKind.startCallback offset duration) sys.transport).1
      let tr₁ := (TransportModel.schedule t
        (ScheduledKind.startCallback offset duration) sys.transport).2
      let prims :=
        if sys.transport.tstate = TransportState.started then
          syncedStartBridge tl₂ ctx ctx.now sys.transport.seconds
        else []
      ({ src := { sys.src with
            timeline := tl₂,
            scheduled := sys.src.scheduled ++ [sched] },
         transport := tr₁ }, prims)
    else
      ({ sys with src := { sys.src with timeline := tl₁ } },
       [Prim.primStart t offset duration])

/-- `Source.stop(time?)`: when unsynced call `_stop` at the computed time,
when synced schedule a deferred `_stop` with the transport and track the
identifier; in both cases cancel the timeline at/after the computed time and
insert a `stopped` event there. -/
def stop (tArg : Option ℚ) (sys : SysState) (ctx : Ctx) :
    SysState × List Prim :=
  let t := computedTime tArg sys ctx
  let tl := StateTimeline.setStateAtTime BasicPlaybackState.stopped t
    sys.src.memory (StateTimeline.cancel t sys.src.timeline)
  if sys.src.synced then
    let sched := (TransportModel.schedule t ScheduledKind.stopCallback
      sys.transport).1
    let tr₁ := (TransportModel.schedule t ScheduledKind.stopCallback
      sys.transport).2
    ({ src := { sys.src with
          timeline := tl,
          scheduled := sys.src.scheduled ++ [sched] },
       transport := tr₁ }, [])
  else
    ({ sys with src := { sys.src with timeline := tl } },
     [Prim.primStop t])

/-- The five listener registrations `sync()` installs, in installation order:
`_syncedStart` on `start`/`loopStart`, `_syncedStop` on
`stop`/`pause`/`loopEnd`. -/
def sourceListenerPairs : List (TransportEventName × ListenerTag) :=
  [(TransportEventName.start, ListenerTag.syncedStartTag),
   (TransportEventName.loopStart, ListenerTag.syncedStartTag),
   (TransportEventName.stop, ListenerTag.syncedStopTag),
   (TransportEventName.pause, ListenerTag.syncedStopTag),
   (TransportEventName.loopEnd, ListenerTag.syncedStopTag)]

/-- `Source.sync()`: no-op if already synced; otherwise set the flag and
install the two bridge closures as transport listeners (`start`, `loopStart`
→ `_syncedStart`; `stop`, `pause`, `loopEnd` → `_syncedStop`). -/
def sync (sys : SysState) : SysState :=
  if sys.src.synced then sys
  else
    { src := { sys.src with synced := true },
      transport :=
        (((((sys.transport.onEvent TransportEventName.start
          ListenerTag.syncedStartTag).onEvent TransportEventName.loopStart
          ListenerTag.syncedStartTag).onEvent TransportEventName.stop
          ListenerTag.syncedStopTag).onEvent TransportEventName.pause
          ListenerTag.syncedStopTag).onEvent TransportEventName.loopEnd
          ListenerTag.syncedStopTag) }

/-- `Source.unsync()`: remove the five bridge listeners (only when synced),
then unconditionally clear the synced flag, clear every tracked transport
identifier, empty the tracked list, and cancel the timeline from time 0. -/
def unsync (sys : SysState) : SysState :=
  let tr₁ :=
    if sys.src.synced then
      ((((sys.transport.offEvent TransportEventName.stop
        ListenerTag.syncedStopTag).offEvent TransportEventName.pause
        ListenerTag.syncedStopTag).offEvent TransportEventName.loopEnd
        ListenerTag.syncedStopTag).offEvent TransportEventName.start
        ListenerTag.syncedStartTag).offEvent TransportEventName.loopStart
        ListenerTag.syncedStartTag
    else sys.transport
  { src := { sys.src with
      synced := false,
      scheduled := [],
      timeline := StateTimeline.cancel 0 sys.src.timeline },
    transport := TransportModel.clearAll sys.src.scheduled tr₁ }

/-- `Source.dispose()`: the base class marks the instance disposed; `unsync()`
runs, clearing all transport registrations (the `onstop` callback and the
volume stage are outside this model). -/
def dispose (sys : SysState) : SysState :=
  let u := unsync sys
  { u with src := { u.src with disposed := true } }

/-- The derived `state` getter: synced and transport started → timeline value
at `transport.seconds`; synced and transport not started → `stopped`;
unsynced → timeline value at `this.now()`. -/
def state (sys : SysState) (ctx : Ctx) : BasicPlaybackState :=
  if sys.src.synced then
    if sys.transport.tstate = TransportState.started then
      StateTimeline.getValueAtTime sys.transport.seconds sys.src.timeline
    else BasicPlaybackState.stopped
  else
    StateTimeline.getValueAtTime ctx.now sys.src.timeline

end Source

/-- A call on the public lifecycle API of a source. -/
inductive ApiCall where
  | callStart (t offset duration : Option ℚ)
  | callStop (t : Option ℚ)
  | callSync
  | callUnsync
deriving DecidableEq, Repr

/-- Modelled from the spec: the use-after-dispose guard lives in the `Tone`
base class, which is not under `src/` — any call on a disposed instance fails
with a "disposed" error; otherwise the call runs as embedded above. -/
def Source.invoke (c : ApiCall) (sys : SysState) (ctx : Ctx) :
    Except String (SysState × List Prim) :=
  if sys.src.disposed then Except.error "disposed"
  else Except.ok (match c with
    | ApiCall.callStart t o d => Source.start t o d sys ctx
    | ApiCall.callStop t => Source.stop t sys ctx
    | ApiCall.callSync => (Source.sync sys, [])
    | ApiCall.callUnsync => (Source.unsync sys, []))

/-- A concrete rendering context for witnesses: clock at 0, no look-ahead,
44100 Hz, transport seconds mapping taken as the identity. -/
def ctx0 : Ctx := ⟨0, 0, 44100, fun t => t⟩

/-- A concrete transport at rest for witnesses. -/
def transport0 : TransportModel := ⟨TransportState.stopped, 0, 0, [], []⟩

/-- A rendering context whose clock has already advanced to 5 s, for the
clamping witness. -/
def ctxLate : Ctx := ⟨5, 0, 44100, fun t => t⟩

/-- The timeline produced by `sync()` followed by `start(0)` on a fresh
instance (the spec's replay scenario). -/
def startedAtZeroTimeline : List StateEvent :=
  ((Source.start (some 0) none none
    (Source.sync (Source.initial transport0)) ctx0).1).src.timeline

/-- A concrete running transport for the state-getter witness. -/
def transportRunning : TransportModel :=
  ⟨TransportState.started, 0, 0, [], []⟩

/-- A synced instance after `sync(); start(1); stop(2)` — it tracks two
schedule identifiers and five listeners. -/
def syncedRunState : SysState :=
  (Source.stop (some 2)
    (Source.start (some 1) none none
      (Source.sync (Source.initial transport0)) ctx0).1 ctx0).1

/-- A transport already carrying another client's deferred callback
(identifier 99), to check that teardown only clears this source's own
identifiers. -/
def transportBusy : TransportModel :=
  ⟨TransportState.stopped, 0, 100, [⟨99, 7, ScheduledKind.stopCallback⟩], []⟩

/-- `sync(); start(1); stop(2)` against the busy transport. -/
def syncedBusyState : SysState :=
  (Source.stop (some 2)
    (Source.start (some 1) none none
      (Source.sync (Source.initial transportBusy)) ctx0).1 ctx0).1

/-!  Theorems  -/

/-- `insertEvent` appends when no element of the list is strictly later. -/
theorem insertEvent_append_of_forall (e : StateEvent) (l : List StateEvent)
    (h : ∀ x ∈ l, ¬ e.time < x.time) :
    StateTimeline.insertEvent e l = l ++ [e] := by
  induction l with
  | nil => rfl
  | cons x xs ih =>
    rw [StateTimeline.insertEvent]
    rw [if_neg (h x (List.mem_cons_self x xs))]
    rw [ih (fun y hy => h y (List.mem_cons_of_mem x hy))]
    rfl

/-- After `cancel ct` followed by `setStateAtTime st ct`, the only event at or
after `ct` is the freshly inserted one (for a nonzero memory bound). -/
theorem filter_ge_setState_cancel (st : BasicPlaybackState) (ct : ℚ)
    (mem : ℕ) (hmem : 1 ≤ mem) (tl : List StateEvent) :
    (StateTimeline.setStateAtTime st ct mem
      (StateTimeline.cancel ct tl)).filter
      (fun e => decide (ct ≤ e.time)) = [⟨ct, st, none, none, none⟩] := by
  rw [StateTimeline.setStateAtTime]
  have hlt : ∀ x ∈ (StateTimeline.cancel ct tl).filter
      (fun e => decide (e.time ≠ ct)), x.time < ct := by
    intro x hx
    have hx' := List.of_mem_filter (List.mem_filter.mp hx).1
    simpa using hx'
  rw [insertEvent_append_of_forall _ _
    (fun x hx => (hlt x hx).asymm)]
  set l₀ := (StateTimeline.cancel ct tl).filter
    (fun e => decide (e.time ≠ ct)) with hl₀def
  have hfl₀ : ∀ (l' : List StateEvent), (∀ x ∈ l', x ∈ l₀) →
      l'.filter (fun e => decide (ct ≤ e.time)) = [] := by
    intro l' hsub
    refine List.filter_eq_nil_iff.mpr (fun a ha => ?_)
    have := hlt a (hsub a ha)
    simp [not_le.mpr this]
  simp only [List.length_append, List.length_singleton]
  split
  · rw [List.drop_append_of_le_length (by omega)]
    rw [List.filter_append, hfl₀ _ (fun x hx => List.mem_of_mem_drop hx)]
    simp
  · rw [List.filter_append, hfl₀ _ (fun x hx => hx)]
    simp

/-- C1: on a fresh unsynced instance, after `start(t0)` then `stop(t1)` with
`currentTime ≤ t0 < t1`, the timeline reports `stopped` before `t0`,
`started` on `[t0, t1)`, and `stopped` from `t1` on. -/
theorem startThenStop_reports_windows (ctx : Ctx) (tr : TransportModel)
    (t0 t1 t : ℚ) (h0 : ctx.currentTime ≤ t0) (h01 : t0 < t1) :
    (t < t0 → StateTimeline.getValueAtTime t
      ((Source.stop (some t1)
        (Source.start (some t0) none none (Source.initial tr) ctx).1
        ctx).1).src.timeline = BasicPlaybackState.stopped) ∧
    (t0 ≤ t → t < t1 → StateTimeline.getValueAtTime t
      ((Source.stop (some t1)
        (Source.start (some t0) none none (Source.initial tr) ctx).1
        ctx).1).src.timeline = BasicPlaybackState.started) ∧
    (t1 ≤ t → StateTimeline.getValueAtTime t
      ((Source.stop (some t1)
        (Source.start (some t0) none none (Source.initial tr) ctx).1
        ctx).1).src.timeline = BasicPlaybackState.stopped) := by
  have hct1 : ctx.currentTime ≤ t1 := le_trans h0 h01.le
  have hs1 : (Source.start (some t0) none none (Source.initial tr) ctx).1
      = { src := { timeline := [⟨t0, BasicPlaybackState.started, none, none, none⟩],
                   memory := 100, synced := false, scheduled := [], disposed := false },
          transport := tr } := by
    simp [Source.start, Source.computedTime, Ctx.toSeconds, Source.initial,
      StateTimeline.getValueAtTime, StateTimeline.getEventAtTime,
      StateTimeline.setStateAtTime, StateTimeline.insertEvent,
      max_eq_left h0]
  have hs2 : ((Source.stop (some t1)
      (Source.start (some t0) none none (Source.initial tr) ctx).1
      ctx).1).src.timeline
      = [⟨t0, BasicPlaybackState.started, none, none, none⟩,
         ⟨t1, BasicPlaybackState.stopped, none, none, none⟩] := by
    rw [hs1]
    simp [Source.stop, Source.computedTime, Ctx.toSeconds,
      StateTimeline.cancel, StateTimeline.setStateAtTime,
      StateTimeline.insertEvent, max_eq_left hct1, h01, h01.ne,
      not_lt_of_le h01.le]
  rw [hs2]
  refine ⟨fun ht => ?_, fun ht0 ht1 => ?_, fun ht => ?_⟩
  · simp [StateTimeline.getValueAtTime, StateTimeline.getEventAtTime,
      ht.not_le, (ht.trans h01).not_le]
  · simp [StateTimeline.getValueAtTime, StateTimeline.getEventAtTime,
      ht0, ht1.not_le]
  · simp [StateTimeline.getValueAtTime, StateTimeline.getEventAtTime,
      (h01.le.trans ht), ht]

/-- C2 counterexample: `start(1)` then `start(2)` on a fresh unsynced
instance. The second `start` finds the state `started` at its effective
time 2 (so it takes the restart branch), yet afterwards the timeline contains
two `started` entries — the one at 1 survives `cancel(2)`. This refutes
"after such a second start while already started, the Timeline never contains
two 'started' entries". -/
theorem secondStart_twoStartedEntries_ce :
    StateTimeline.getValueAtTime 2
      ((Source.start (some 1) none none (Source.initial transport0)
        ctx0).1).src.timeline = BasicPlaybackState.started ∧
    (Source.start (some 2) none none
      (Source.start (some 1) none none (Source.initial transport0) ctx0).1
      ctx0).2 = [Prim.primRestart 2 none none] ∧
    (((Source.start (some 2) none none
        (Source.start (some 1) none none (Source.initial transport0) ctx0).1
        ctx0).1).src.timeline.filter
      (fun e => decide (e.state = BasicPlaybackState.started))).length
      = 2 := by
  decide

/-- C2 amended: if the timeline already reports `started` at the effective
time `ct`, `start` cancels all events at/after `ct`, re-inserts a `started`
event at `ct`, and delegates to `restart` (never `_start`), touching neither
the transport nor the tracked identifiers; afterwards the only timeline entry
at or after `ct` is that `started` event — but a `started` entry strictly
before `ct` may remain, so the timeline as a whole can hold two `started`
entries. -/
theorem secondStart_restartBranch (sys : SysState) (ctx : Ctx)
    (tArg o d : Option ℚ) (hmem : 1 ≤ sys.src.memory)
    (h : StateTimeline.getValueAtTime (Source.computedTime tArg sys ctx)
      sys.src.timeline = BasicPlaybackState.started) :
    (Source.start tArg o d sys ctx).2
      = [Prim.primRestart (Source.computedTime tArg sys ctx) o d] ∧
    (Source.start tArg o d sys ctx).1.src.timeline
      = StateTimeline.setStateAtTime BasicPlaybackState.started
          (Source.computedTime tArg sys ctx) sys.src.memory
          (StateTimeline.cancel (Source.computedTime tArg sys ctx)
            sys.src.timeline) ∧
    ((Source.start tArg o d sys ctx).1.src.timeline.filter
      (fun e => decide (Source.computedTime tArg sys ctx ≤ e.time)))
      = [⟨Source.computedTime tArg sys ctx, BasicPlaybackState.started,
          none, none, none⟩] ∧
    (Source.start tArg o d sys ctx).1.transport = sys.transport ∧
    (Source.start tArg o d sys ctx).1.src.scheduled = sys.src.scheduled := by
  refine ⟨?_, ?_, ?_, ?_, ?_⟩ <;>
    simp [Source.start, h, filter_ge_setState_cancel _ _ _ hmem]

/-- C2 amended witness: the `start(1)`-then-`start(2)` scenario instantiating
the restart-branch theorem. -/
theorem secondStart_restartBranch_witness :
    (Source.start (some 2) none none
      (Source.start (some 1) none none (Source.initial transport0) ctx0).1
      ctx0).2 = [Prim.primRestart (Source.computedTime (some 2)
        (Source.start (some 1) none none (Source.initial transport0) ctx0).1
        ctx0) none none] ∧
    (Source.start (some 2) none none
      (Source.start (some 1) none none (Source.initial transport0) ctx0).1
      ctx0).1.src.timeline
      = StateTimeline.setStateAtTime BasicPlaybackState.started
          (Source.computedTime (some 2)
            (Source.start (some 1) none none (Source.initial transport0)
              ctx0).1 ctx0)
          ((Source.start (some 1) none none (Source.initial transport0)
            ctx0).1).src.memory
          (StateTimeline.cancel
            (Source.computedTime (some 2)
              (Source.start (some 1) none none (Source.initial transport0)
                ctx0).1 ctx0)
            ((Source.start (some 1) none none (Source.initial transport0)
              ctx0).1).src.timeline) ∧
    (((Source.start (some 2) none none
        (Source.start (some 1) none none (Source.initial transport0) ctx0).1
        ctx0).1).src.timeline.filter
      (fun e => decide (Source.computedTime (some 2)
        (Source.start (some 1) none none (Source.initial transport0) ctx0).1
        ctx0 ≤ e.time)))
      = [⟨Source.computedTime (some 2)
            (Source.start (some 1) none none (Source.initial transport0)
              ctx0).1 ctx0,
          BasicPlaybackState.started, none, none, none⟩] ∧
    (Source.start (some 2) none none
      (Source.start (some 1) none none (Source.initial transport0) ctx0).1
      ctx0).1.transport
      = ((Source.start (some 1) none none (Source.initial transport0)
          ctx0).1).transport ∧
    (Source.start (some 2) none none
      (Source.start (some 1) none none (Source.initial transport0) ctx0).1
      ctx0).1.src.scheduled
      = ((Source.start (some 1) none none (Source.initial transport0)
          ctx0).1).src.scheduled :=
  secondStart_restartBranch
    (Source.start (some 1) none none (Source.initial transport0) ctx0).1
    ctx0 (some 2) none none (by decide) (by decide)

/-- C3: with an explicit time argument `t`, the effective scheduling time of
`start`/`stop` is `max(toSeconds(t), currentTime)` — past requests are
clamped forward to the rendering clock's current time and the call still
succeeds (is not rejected); with the argument omitted on a synced instance,
the transport's current logical seconds is used. -/
theorem effectiveTime_clamped (sys : SysState) (ctx : Ctx) (t : ℚ)
    (o d : Option ℚ) :
    Source.computedTime (some t) sys ctx
      = max (ctx.toSeconds (some t)) ctx.currentTime ∧
    (t < ctx.currentTime →
      Source.computedTime (some t) sys ctx = ctx.currentTime) ∧
    ctx.currentTime ≤ Source.computedTime (some t) sys ctx ∧
    (sys.src.synced = true →
      Source.computedTime none sys ctx = sys.transport.seconds) ∧
    (sys.src.disposed = false →
      Source.invoke (ApiCall.callStart (some t) o d) sys ctx
        = Except.ok (Source.start (some t) o d sys ctx) ∧
      Source.invoke (ApiCall.callStop (some t)) sys ctx
        = Except.ok (Source.stop (some t) sys ctx)) := by
  refine ⟨by simp [Source.computedTime], fun hlt => ?_,
    ?_, fun hsync => ?_, fun hdisp => ?_⟩
  · simp [Source.computedTime, Ctx.toSeconds, max_eq_right hlt.le]
  · simp [Source.computedTime, Ctx.toSeconds]
  · simp [Source.computedTime, hsync]
  · constructor <;> simp [Source.invoke, hdisp]

/-- C3 witness: a `start(2)` request while the clock is at 5 s is clamped to
5 s and accepted; a synced instance with the argument omitted schedules at the
transport's seconds. -/
theorem effectiveTime_clamped_witness :
    Source.computedTime (some 2) (Source.initial transport0) ctxLate
      = ctxLate.currentTime ∧
    Source.computedTime none (Source.sync (Source.initial transport0)) ctxLate
      = (Source.sync (Source.initial transport0)).transport.seconds ∧
    Source.invoke (ApiCall.callStart (some 2) none none)
        (Source.initial transport0) ctxLate
      = Except.ok (Source.start (some 2) none none
          (Source.initial transport0) ctxLate) :=
  ⟨(effectiveTime_clamped (Source.initial transport0) ctxLate 2
      none none).2.1 (by decide),
   (effectiveTime_clamped (Source.sync (Source.initial transport0)) ctxLate 2
      none none).2.2.2.1 (by decide),
   ((effectiveTime_clamped (Source.initial transport0) ctxLate 2
      none none).2.2.2.2 (by decide)).1⟩

/-- The replay-scenario timeline is a single `started` event at 0 with
recorded offset 0. -/
theorem startedAtZeroTimeline_eq :
    startedAtZeroTimeline
      = [⟨0, BasicPlaybackState.started, some 0, none, none⟩] := by
  decide

/-- C4: the sync-start bridge fired with rendering time `r` and transport
offset `o` invokes `_start` iff `o > 0` and the timeline event at-or-before
`o` is `started` with recorded time ≠ `o`; the invocation then is
`_start(r, e.offset + (o − e.time), e.duration − (o − e.time))`, the duration
argument being absent when none was recorded. -/
theorem syncedStartBridge_spec (tl : List StateEvent) (ctx : Ctx) (r o : ℚ) :
    (Source.syncedStartBridge tl ctx r o ≠ [] ↔
      0 < o ∧ ∃ e, StateTimeline.getEventAtTime o tl = some e ∧
        e.state = BasicPlaybackState.started ∧ e.time ≠ o) ∧
    (∀ e o₀, 0 < o → StateTimeline.getEventAtTime o tl = some e →
      e.state = BasicPlaybackState.started → e.time ≠ o →
      e.offset = some o₀ → e.duration ≠ some 0 →
      Source.syncedStartBridge tl ctx r o
        = [Prim.primStart r (some (o₀ + (o - e.time)))
            (e.duration.map (fun dr => dr - (o - e.time)))]) := by
  constructor
  · constructor
    · intro hne
      by_cases ho : 0 < o
      · rw [Source.syncedStartBridge, if_pos ho] at hne
        cases hev : StateTimeline.getEventAtTime o tl with
        | none => rw [hev] at hne; simp at hne
        | some e =>
          rw [hev] at hne
          dsimp only at hne
          by_cases hc : e.state = BasicPlaybackState.started ∧ e.time ≠ o
          · exact ⟨ho, e, rfl, hc.1, hc.2⟩
          · rw [if_neg hc] at hne; simp at hne
      · rw [Source.syncedStartBridge, if_neg ho] at hne; simp at hne
    · rintro ⟨ho, e, hev, hst, hne⟩
      rw [Source.syncedStartBridge, if_pos ho, hev]
      dsimp only
      rw [if_pos ⟨hst, hne⟩]
      simp
  · intro e o₀ ho hev hst hne hoff hdur
    rw [Source.syncedStartBridge, if_pos ho, hev]
    dsimp only
    rw [if_pos ⟨hst, hne⟩]
    cases hd : e.duration with
    | none => simp [hoff, hd, Ctx.toSeconds]
    | some dd =>
      have hdd : ¬ dd = 0 := by
        intro h0
        exact hdur (by rw [hd, h0])
      simp [hoff, hd, hdd, Ctx.toSeconds]

/-- C4 witness: after `sync()` then `start(0)`, a transport start firing the
bridge with transport offset 0.5 invokes `_start` with offset 0.5 (and no
duration). -/
theorem syncedStartBridge_spec_witness :
    Source.syncedStartBridge startedAtZeroTimeline ctx0 3 (1/2)
      = [Prim.primStart 3 (some (1/2)) none] := by
  have h := (syncedStartBridge_spec startedAtZeroTimeline ctx0 3 (1/2)).2
    ⟨0, BasicPlaybackState.started, some 0, none, none⟩ 0
    (by norm_num)
    (by rw [startedAtZeroTimeline_eq]
        norm_num [StateTimeline.getEventAtTime])
    (by rfl) (by norm_num) (by rfl) (by simp)
  rw [h]
  norm_num

/-- C5: the sync-stop bridge fired with rendering time `r` invokes `_stop(r)`
iff the timeline reports `started` at
`transport.getSecondsAtTime(max(r − 1/sampleRate, 0))`, and stays silent when
it reports `stopped` there. -/
theorem syncedStopBridge_spec (tl : List StateEvent) (ctx : Ctx) (r : ℚ) :
    (StateTimeline.getValueAtTime
        (ctx.getSecondsAtTime (max (r - ctx.sampleTime) 0)) tl
        = BasicPlaybackState.started →
      Source.syncedStopBridge tl ctx r = [Prim.primStop r]) ∧
    (StateTimeline.getValueAtTime
        (ctx.getSecondsAtTime (max (r - ctx.sampleTime) 0)) tl
        = BasicPlaybackState.stopped →
      Source.syncedStopBridge tl ctx r = []) := by
  constructor <;> intro h <;> simp [Source.syncedStopBridge, h]

/-- C5 witness: with the identity transport mapping, a source `started` from
time 0 is stopped by the bridge at rendering time 1, and one with an empty
timeline is left alone. -/
theorem syncedStopBridge_spec_witness :
    Source.syncedStopBridge
      [⟨0, BasicPlaybackState.started, none, none, none⟩] ctx0 1
      = [Prim.primStop 1] ∧
    Source.syncedStopBridge [] ctx0 1 = [] :=
  ⟨(syncedStopBridge_spec
      [⟨0, BasicPlaybackState.started, none, none, none⟩] ctx0 1).1
      (by simp [ctx0, StateTimeline.getValueAtTime,
        StateTimeline.getEventAtTime, le_max_right]),
   (syncedStopBridge_spec [] ctx0 1).2 rfl⟩

/-- C6: the derived `state` getter — synced with the transport running it
reads the timeline at the transport's logical seconds; synced with the
transport halted it reports `stopped` unconditionally; unsynced it reads the
timeline at `currentTime + lookAhead`. -/
theorem state_getter_spec (sys : SysState) (ctx : Ctx) :
    (sys.src.synced = true → sys.transport.tstate = TransportState.started →
      Source.state sys ctx
        = StateTimeline.getValueAtTime sys.transport.seconds
            sys.src.timeline) ∧
    (sys.src.synced = true → sys.transport.tstate ≠ TransportState.started →
      Source.state sys ctx = BasicPlaybackState.stopped) ∧
    (sys.src.synced = false →
      Source.state sys ctx
        = StateTimeline.getValueAtTime (ctx.currentTime + ctx.lookAhead)
            sys.src.timeline) := by
  refine ⟨fun h1 h2 => ?_, fun h1 h2 => ?_, fun h1 => ?_⟩
  · simp [Source.state, h1, h2]
  · simp [Source.state, h1, h2]
  · simp [Source.state, Ctx.now, h1]

/-- C6 witness: the three branches at concrete states — a synced source on a
running transport, a synced source on a stopped transport (whose timeline
holds a `started` event, yet the getter says `stopped`), and an unsynced
source. -/
theorem state_getter_spec_witness :
    Source.state (Source.sync (Source.initial transportRunning)) ctx0
      = StateTimeline.getValueAtTime
          (Source.sync (Source.initial transportRunning)).transport.seconds
          (Source.sync (Source.initial transportRunning)).src.timeline ∧
    Source.state
      (Source.start (some 1) none none
        (Source.sync (Source.initial transport0)) ctx0).1 ctx0
      = BasicPlaybackState.stopped ∧
    Source.state (Source.initial transport0) ctx0
      = StateTimeline.getValueAtTime (ctx0.currentTime + ctx0.lookAhead)
          (Source.initial transport0).src.timeline :=
  ⟨(state_getter_spec (Source.sync (Source.initial transportRunning))
      ctx0).1 (by decide) (by decide),
   (state_getter_spec
      (Source.start (some 1) none none
        (Source.sync (Source.initial transport0)) ctx0).1 ctx0).2.1
      (by decide) (by decide),
   (state_getter_spec (Source.initial transport0) ctx0).2.2 (by decide)⟩

/-- `clearAll` peels one `clear` at a time. -/
theorem clearAll_cons (i : ℕ) (ids : List ℕ) (tr : TransportModel) :
    TransportModel.clearAll (i :: ids) tr
      = TransportModel.clearAll ids (TransportModel.clear i tr) := rfl

theorem clearAll_mem_iff (ids : List ℕ) (tr : TransportModel)
    (e : ScheduledEntry) :
    e ∈ (TransportModel.clearAll ids tr).scheduled ↔
      e ∈ tr.scheduled ∧ e.id ∉ ids := by
  induction ids generalizing tr with
  | nil => simp [TransportModel.clearAll]
  | cons i ids ih =>
    rw [clearAll_cons, ih]
    simp only [TransportModel.clear, List.mem_filter, decide_eq_true_eq,
      List.mem_cons]
    constructor
    · rintro ⟨⟨hm, hni⟩, hnin⟩
      exact ⟨hm, fun hc => hc.elim hni hnin⟩
    · rintro ⟨hm, hni⟩
      exact ⟨⟨hm, fun hc => hni (Or.inl hc)⟩, fun hc => hni (Or.inr hc)⟩

/-- `clearAll` leaves the listener table untouched. -/
theorem clearAll_listeners (ids : List ℕ) (tr : TransportModel) :
    (TransportModel.clearAll ids tr).listeners = tr.listeners := by
  induction ids generalizing tr with
  | nil => rfl
  | cons i ids ih =>
    rw [clearAll_cons, ih]
    rfl

/-- The five `off` calls of `unsync` remove exactly this source's bridge
registrations from the listener table. -/
theorem offChain_mem_iff (tr : TransportModel)
    (l : TransportEventName × ListenerTag) :
    l ∈ (((((tr.offEvent TransportEventName.stop
        ListenerTag.syncedStopTag).offEvent TransportEventName.pause
        ListenerTag.syncedStopTag).offEvent TransportEventName.loopEnd
        ListenerTag.syncedStopTag).offEvent TransportEventName.start
        ListenerTag.syncedStartTag).offEvent TransportEventName.loopStart
        ListenerTag.syncedStartTag).listeners ↔
      l ∈ tr.listeners ∧ l ∉ Source.sourceListenerPairs := by
  simp only [TransportModel.offEvent, List.mem_filter, decide_eq_true_eq,
    Source.sourceListenerPairs, List.mem_cons, List.not_mem_nil, or_false]
  constructor
  · rintro ⟨⟨⟨⟨⟨hm, h1⟩, h2⟩, h3⟩, h4⟩, h5⟩
    refine ⟨hm, fun hc => ?_⟩
    rcases hc with hc | hc | hc | hc | hc
    · exact h4 hc
    · exact h5 hc
    · exact h1 hc
    · exact h2 hc
    · exact h3 hc
  · rintro ⟨hm, hn⟩
    exact ⟨⟨⟨⟨⟨hm, fun hc => hn (Or.inr (Or.inr (Or.inl hc)))⟩,
      fun hc => hn (Or.inr (Or.inr (Or.inr (Or.inl hc))))⟩,
      fun hc => hn (Or.inr (Or.inr (Or.inr (Or.inr hc))))⟩,
      fun hc => hn (Or.inl hc)⟩,
      fun hc => hn (Or.inr (Or.inl hc))⟩

/-- C7: on a synced instance (with the nonnegative event times every
reachable timeline has), one `unsync()` clears the synced flag, empties the
tracked-identifier list, removes all five bridge listeners (and nothing
else), clears via `transport.clear` exactly the tracked schedule identifiers,
and cancels the timeline from 0 so every query reports `stopped`. -/
theorem unsync_resets (sys : SysState) (hs : sys.src.synced = true)
    (hnn : ∀ e ∈ sys.src.timeline, 0 ≤ e.time) :
    (Source.unsync sys).src.synced = false ∧
    (Source.unsync sys).src.scheduled = [] ∧
    (∀ l, l ∈ (Source.unsync sys).transport.listeners ↔
      (l ∈ sys.transport.listeners ∧ l ∉ Source.sourceListenerPairs)) ∧
    (∀ e, e ∈ (Source.unsync sys).transport.scheduled ↔
      (e ∈ sys.transport.scheduled ∧ e.id ∉ sys.src.scheduled)) ∧
    (∀ t, StateTimeline.getValueAtTime t (Source.unsync sys).src.timeline
      = BasicPlaybackState.stopped) := by
  have hcancel : StateTimeline.cancel 0 sys.src.timeline = [] :=
    List.filter_eq_nil_iff.mpr (fun a ha => by
      simp [not_lt.mpr (hnn a ha)])
  refine ⟨by simp [Source.unsync], by simp [Source.unsync],
    fun l => ?_, fun e => ?_, fun t => ?_⟩
  · rw [Source.unsync]
    simp only [hs, if_true]
    rw [clearAll_listeners]
    exact offChain_mem_iff sys.transport l
  · rw [Source.unsync]
    simp only [hs, if_true]
    rw [clearAll_mem_iff]
    simp [TransportModel.offEvent]
  · simp [Source.unsync, hcancel, StateTimeline.getValueAtTime,
      StateTimeline.getEventAtTime]

/-- C7 witness: `sync(); start(1); stop(2)` then `unsync()` — the flag and the
tracked list are cleared, the `start` listener is gone, the two deferred
callbacks (identifiers 0 and 1) are cleared, and a query at 3/2 (previously
`started`) reports `stopped`. -/
theorem unsync_resets_witness :
    (Source.unsync syncedRunState).src.synced = false ∧
    (Source.unsync syncedRunState).src.scheduled = [] ∧
    ¬ ((TransportEventName.start, ListenerTag.syncedStartTag)
        ∈ (Source.unsync syncedRunState).transport.listeners) ∧
    ¬ (∃ e, e ∈ (Source.unsync syncedRunState).transport.scheduled ∧
        e.id = 0) ∧
    StateTimeline.getValueAtTime (3/2)
      (Source.unsync syncedRunState).src.timeline
      = BasicPlaybackState.stopped := by
  have h := unsync_resets syncedRunState (by decide) (by decide)
  refine ⟨h.1, h.2.1, ?_, ?_, h.2.2.2.2 (3/2)⟩
  · intro hc
    have := (h.2.2.1 _).mp hc
    exact this.2 (by decide)
  · rintro ⟨e, he, hid⟩
    have := (h.2.2.2.1 e).mp he
    refine this.2 ?_
    rw [hid]
    decide

/-- Cancelling from 0 twice is the same as cancelling once. -/
theorem cancel_zero_idem (l : List StateEvent) :
    StateTimeline.cancel 0 (StateTimeline.cancel 0 l)
      = StateTimeline.cancel 0 l := by
  rw [StateTimeline.cancel, StateTimeline.cancel, List.filter_filter]
  exact List.filter_congr (fun a _ => by simp)

/-- C8 counterexample: an unsynced instance that has recorded `start(1)`.
The claim says `unsync()` on a not-synced instance leaves the timeline
unchanged — but `unsync` cancels the timeline from 0 unconditionally, erasing
the `started` event. -/
theorem redundantUnsync_changesTimeline_ce :
    ((Source.start (some 1) none none
      (Source.initial transport0) ctx0).1).src.synced = false ∧
    (Source.unsync
      (Source.start (some 1) none none
        (Source.initial transport0) ctx0).1).src.timeline
      ≠ ((Source.start (some 1) none none
        (Source.initial transport0) ctx0).1).src.timeline := by
  decide

/-- C8 amended: `sync()` on an already-synced instance is a complete no-op
and `unsync` is idempotent (`unsync ∘ unsync = unsync`), and neither errors;
but `unsync()` on a not-synced instance, while leaving the synced flag and
the transport listeners unchanged, still empties the tracked-identifier list
and cancels the timeline from time 0. -/
theorem redundantSyncUnsync_amended (sys : SysState) :
    (sys.src.synced = true → Source.sync sys = sys) ∧
    (sys.src.synced = false →
      ((Source.unsync sys).transport.listeners = sys.transport.listeners ∧
       (Source.unsync sys).src.synced = false ∧
       (Source.unsync sys).src.scheduled = [] ∧
       (Source.unsync sys).src.timeline
         = StateTimeline.cancel 0 sys.src.timeline)) ∧
    Source.unsync (Source.unsync sys) = Source.unsync sys := by
  refine ⟨fun hs => by simp [Source.sync, hs], fun hs => ?_, ?_⟩
  · refine ⟨?_, by simp [Source.unsync], by simp [Source.unsync],
      by simp [Source.unsync]⟩
    rw [Source.unsync]
    simp only [hs, Bool.false_eq_true, if_false]
    rw [clearAll_listeners]
  · cases sys with
    | mk src tr =>
      cases src with
      | mk tl mem sy sch disp =>
        simp only [Source.unsync]
        simp [SysState.mk.injEq, SourceState.mk.injEq, cancel_zero_idem,
          TransportModel.clearAll]

/-- C8 amended witness: `sync` is a no-op on the already-synced run state;
`unsync` on an unsynced instance keeps the (empty) listener table; `unsync`
is idempotent on a fresh instance. -/
theorem redundantSyncUnsync_amended_witness :
    Source.sync syncedRunState = syncedRunState ∧
    (Source.unsync
      (Source.start (some 1) none none
        (Source.initial transport0) ctx0).1).transport.listeners
      = ((Source.start (some 1) none none
        (Source.initial transport0) ctx0).1).transport.listeners ∧
    Source.unsync (Source.unsync (Source.initial transport0))
      = Source.unsync (Source.initial transport0) :=
  ⟨(redundantSyncUnsync_amended syncedRunState).1 (by decide),
   ((redundantSyncUnsync_amended
      (Source.start (some 1) none none
        (Source.initial transport0) ctx0).1).2.1 (by decide)).1,
   (redundantSyncUnsync_amended (Source.initial transport0)).2.2⟩

/-- C9: after `dispose()` the instance is marked disposed and every further
API call fails with the "disposed" error; disposal has already run `unsync`,
so the tracked-identifier list is empty, exactly the tracked schedule
identifiers are gone from the transport (foreign entries survive — shared
state is not corrupted), and, if the instance was synced, none of its five
bridge listeners remains installed. -/
theorem dispose_guard (sys : SysState) (ctx : Ctx) (c : ApiCall) :
    (Source.dispose sys).src.disposed = true ∧
    Source.invoke c (Source.dispose sys) ctx = Except.error "disposed" ∧
    (Source.dispose sys).src.scheduled = [] ∧
    (∀ e, e ∈ (Source.dispose sys).transport.scheduled ↔
      (e ∈ sys.transport.scheduled ∧ e.id ∉ sys.src.scheduled)) ∧
    (sys.src.synced = true →
      ∀ l ∈ Source.sourceListenerPairs,
        l ∉ (Source.dispose sys).transport.listeners) := by
  have hd : (Source.dispose sys).src.disposed = true := by
    simp [Source.dispose]
  refine ⟨hd, by simp [Source.invoke, hd], by simp [Source.dispose,
    Source.unsync], fun e => ?_, fun hs l hl hc => ?_⟩
  · simp only [Source.dispose, Source.unsync]
    rw [clearAll_mem_iff]
    by_cases hsy : sys.src.synced <;> simp [hsy, TransportModel.offEvent]
  · simp only [Source.dispose, Source.unsync] at hc
    rw [clearAll_listeners] at hc
    simp only [hs, if_true] at hc
    exact ((offChain_mem_iff sys.transport l).mp hc).2 hl

/-- C9 witness: disposing the synced instance that shares the transport with
a foreign callback (identifier 99) — further `start` errors, both own
identifiers (100, 101) are cleared, the foreign entry survives, and the
`start` bridge listener is gone. -/
theorem dispose_guard_witness :
    (Source.dispose syncedBusyState).src.disposed = true ∧
    Source.invoke (ApiCall.callStart (some 1) none none)
      (Source.dispose syncedBusyState) ctx0 = Except.error "disposed" ∧
    (Source.dispose syncedBusyState).src.scheduled = [] ∧
    (⟨99, 7, ScheduledKind.stopCallback⟩ : ScheduledEntry)
      ∈ (Source.dispose syncedBusyState).transport.scheduled ∧
    ¬ ((TransportEventName.start, ListenerTag.syncedStartTag)
        ∈ (Source.dispose syncedBusyState).transport.listeners) := by
  have h := dispose_guard syncedBusyState ctx0
    (ApiCall.callStart (some 1) none none)
  exact ⟨h.1, h.2.1, h.2.2.1,
    (h.2.2.2.1 ⟨99, 7, ScheduledKind.stopCallback⟩).mpr
      ⟨by decide, by decide⟩,
    h.2.2.2.2 (by decide) (TransportEventName.start,
      ListenerTag.syncedStartTag) (by decide)⟩

/-- C10: while synced, `stop` only appends — the new deferred-`_stop`
identifier is pushed and every previously scheduled transport callback
survives, even though the timeline at/after the effective time is cancelled
down to the single new `stopped` event; the restart branch of `start` touches
neither the transport nor the tracked-identifier list. Only `unsync`/
`dispose` remove tracked registrations. -/
theorem registrations_persist (sys : SysState) (ctx : Ctx)
    (tArg o d : Option ℚ) (hs : sys.src.synced = true) :
    ((Source.stop tArg sys ctx).1.src.scheduled
      = sys.src.scheduled ++ [sys.transport.nextId]) ∧
    ((Source.stop tArg sys ctx).1.transport.scheduled
      = sys.transport.scheduled
        ++ [⟨sys.transport.nextId, Source.computedTime tArg sys ctx,
             ScheduledKind.stopCallback⟩]) ∧
    (∀ e ∈ sys.transport.scheduled,
      e ∈ (Source.stop tArg sys ctx).1.transport.scheduled) ∧
    (1 ≤ sys.src.memory →
      ((Source.stop tArg sys ctx).1.src.timeline.filter
        (fun e => decide (Source.computedTime tArg sys ctx ≤ e.time)))
        = [⟨Source.computedTime tArg sys ctx, BasicPlaybackState.stopped,
            none, none, none⟩]) ∧
    (StateTimeline.getValueAtTime (Source.computedTime tArg sys ctx)
        sys.src.timeline = BasicPlaybackState.started →
      ((Source.start tArg o d sys ctx).1.transport = sys.transport ∧
       (Source.start tArg o d sys ctx).1.src.scheduled
         = sys.src.scheduled)) := by
  refine ⟨?_, ?_, fun e he => ?_, fun hm => ?_, fun h => ?_⟩
  · simp [Source.stop, hs, TransportModel.schedule]
  · simp [Source.stop, hs, TransportModel.schedule]
  · simp only [Source.stop, hs, TransportModel.schedule]
    simp [List.mem_append, he]
  · simp [Source.stop, hs, filter_ge_setState_cancel _ _ _ hm]
  · constructor <;> simp [Source.start, h]

/-- C10 witness: on the synced `start(1); stop(2)` instance, a further
`stop(1)` pushes identifier 2 while the earlier deferred-start entry
(identifier 0) survives, the timeline at/after 1 shrinks to the new `stopped`
event, and a restarting `start(1)` changes no registration. -/
theorem registrations_persist_witness :
    ((Source.stop (some 1) syncedRunState ctx0).1.src.scheduled
      = syncedRunState.src.scheduled
        ++ [syncedRunState.transport.nextId]) ∧
    ((Source.stop (some 1) syncedRunState ctx0).1.transport.scheduled
      = syncedRunState.transport.scheduled
        ++ [⟨syncedRunState.transport.nextId,
             Source.computedTime (some 1) syncedRunState ctx0,
             ScheduledKind.stopCallback⟩]) ∧
    (⟨0, 1, ScheduledKind.startCallback none none⟩ : ScheduledEntry)
      ∈ (Source.stop (some 1) syncedRunState ctx0).1.transport.scheduled ∧
    ((Source.stop (some 1) syncedRunState ctx0).1.src.timeline.filter
      (fun e => decide (Source.computedTime (some 1) syncedRunState ctx0
        ≤ e.time)))
      = [⟨Source.computedTime (some 1) syncedRunState ctx0,
          BasicPlaybackState.stopped, none, none, none⟩] ∧
    ((Source.start (some 1) none none syncedRunState ctx0).1.transport
      = syncedRunState.transport ∧
     (Source.start (some 1) none none syncedRunState ctx0).1.src.scheduled
      = syncedRunState.src.scheduled) := by
  have h := registrations_persist syncedRunState ctx0 (some 1) none none
    (by decide)
  exact ⟨h.1, h.2.1,
    h.2.2.1 ⟨0, 1, ScheduledKind.startCallback none none⟩ (by decide),
    h.2.2.2.1 (by decide), h.2.2.2.2 (by decide)⟩

/-- C1 witness: the spec's own scenario — start at 1 s, stop at 3 s, query at
0.5 s, 2 s and 3.5 s. -/
theorem startThenStop_reports_windows_witness :
    StateTimeline.getValueAtTime (1/2)
      ((Source.stop (some 3)
        (Source.start (some 1) none none (Source.initial transport0) ctx0).1
        ctx0).1).src.timeline = BasicPlaybackState.stopped ∧
    StateTimeline.getValueAtTime 2
      ((Source.stop (some 3)
        (Source.start (some 1) none none (Source.initial transport0) ctx0).1
        ctx0).1).src.timeline = BasicPlaybackState.started ∧
    StateTimeline.getValueAtTime (7/2)
      ((Source.stop (some 3)
        (Source.start (some 1) none none (Source.initial transport0) ctx0).1
        ctx0).1).src.timeline = BasicPlaybackState.stopped :=
  ⟨(startThenStop_reports_windows ctx0 transport0 1 3 (1/2)
      (by norm_num [ctx0]) (by norm_num)).1 (by norm_num),
   (startThenStop_reports_windows ctx0 transport0 1 3 2
      (by norm_num [ctx0]) (by norm_num)).2.1 (by norm_num) (by norm_num),
   (startThenStop_reports_windows ctx0 transport0 1 3 (7/2)
      (by norm_num [ctx0]) (by norm_num)).2.2 (by norm_num)⟩

end Tone
